import Mathlib

/-!
Shallow embedding of `src/server.js` (universal-downloader-backend): an
Express server with a `POST /api/download` route, a `GET /file/:id` route
serving temporary mp3 files from `/tmp`, and a periodic janitor sweep.
External collaborators (the yt-dlp tool, the WHATWG URL parser embedded in
Node, the nanoid generator) are modelled as oracle parameters; everything
the handler itself computes is translated directly from the source.
-/

namespace Server

/-- A JavaScript primitive value as it can appear in a parsed JSON request
body field (`undefined` stands for an absent binding after destructuring). -/
inductive JSPrim where
  | undef
  | null
  | bool (b : Bool)
  | num (n : Int)
  | str (s : String)
deriving DecidableEq, Repr

/-- A JSON-ish JavaScript value: a primitive or a (one-level) array of
primitives, enough to model the coercions the handler performs on the
request body fields. -/
inductive JSVal where
  | prim (p : JSPrim)
  | list (xs : List JSPrim)
deriving DecidableEq, Repr

/-- Shorthand for a JS string value. -/
def jstr (s : String) : JSVal := JSVal.prim (JSPrim.str s)

/-- JavaScript truthiness: `undefined`, `null`, `false`, `0` and `""` are
falsy; every array (even empty) is truthy. -/
def truthy : JSVal → Bool
  | .prim .undef => false
  | .prim .null => false
  | .prim (.bool b) => b
  | .prim (.num n) => n != 0
  | .prim (.str s) => s != ""
  | .list _ => true

/-- `v || d` in JavaScript: the left value when truthy, else the default. -/
def jsOr (v d : JSVal) : JSVal := if truthy v then v else d

/-- `String(p)` for a primitive. -/
def jsPrimToString : JSPrim → String
  | .undef => "undefined"
  | .null => "null"
  | .bool true => "true"
  | .bool false => "false"
  | .num n => toString n
  | .str s => s

/-- How `Array.prototype.join` renders one element: `undefined` and `null`
become empty, everything else is `String(p)`. -/
def jsElemString : JSPrim → String
  | .undef => ""
  | .null => ""
  | p => jsPrimToString p

/-- Join strings with a comma separator (`Array.prototype.join(",")`). -/
def joinComma : List String → String
  | [] => ""
  | [s] => s
  | s :: rest => s ++ "," ++ joinComma rest

/-- `String(v)`: primitives render directly, arrays render as their
comma-joined elements. -/
def jsToString : JSVal → String
  | .prim p => jsPrimToString p
  | .list xs => joinComma (xs.map jsElemString)

/-- ASCII lowercasing, character by character: the behaviour of
`String.prototype.toLowerCase` on the ASCII range the server compares
against (platform names, host names, format names). -/
def toLowerAscii (s : String) : String := ⟨s.data.map Char.toLower⟩

/-- The body of a `POST /api/download` request after JSON parsing: each
field is either absent or some JavaScript value. -/
structure ReqBody where
  platform : Option JSVal := none
  url : Option JSVal := none
  format : Option JSVal := none
  quality : Option JSVal := none
deriving DecidableEq, Repr

/-- A field of `req.body || {}` before destructuring: `none` when the body
is absent or the field is missing. -/
def getFieldO (body : Option ReqBody) (sel : ReqBody → Option JSVal) : Option JSVal :=
  match body with
  | none => none
  | some rb => sel rb

/-- The destructured field value: missing bindings read as `undefined`. -/
def getFieldV (body : Option ReqBody) (sel : ReqBody → Option JSVal) : JSVal :=
  (getFieldO body sel).getD (JSVal.prim JSPrim.undef)

/-- `ALLOWED_PLATFORMS` of server.js. -/
def ALLOWED_PLATFORMS : List String := ["youtube", "instagram", "tiktok", "twitter"]

/-- `ALLOWED_HOSTS` of server.js. -/
def ALLOWED_HOSTS : List String :=
  ["youtube.com", "www.youtube.com", "youtu.be",
   "instagram.com", "www.instagram.com",
   "tiktok.com", "www.tiktok.com",
   "twitter.com", "www.twitter.com", "x.com", "www.x.com"]

/-- `isAllowedUrl` of server.js. `new URL(u)` — Node's WHATWG URL parser —
is external, so it enters as an oracle `parse` mapping the string the
argument coerces to either to its hostname or to `none` when the
constructor throws; the `try/catch` around it yields `false` on `none`. -/
def isAllowedUrl (parse : String → Option String) (u : JSVal) : Bool :=
  match parse (jsToString u) with
  | none => false
  | some host => ALLOWED_HOSTS.contains (toLowerAscii host)

/-- The request headers `publicBase` and the link construction read. -/
structure Headers where
  xForwardedProto : Option String := none
  xForwardedHost : Option String := none
  host : Option String := none
deriving DecidableEq, Repr

/-- `v || d` on an optional header string (absent and empty are falsy). -/
def orFalsy (v : Option String) (d : String) : String :=
  match v with
  | none => d
  | some s => if s == "" then d else s

/-- `publicBase` of server.js: x-forwarded-proto falling back to "https",
and x-forwarded-host falling back to the Host header falling back to "". -/
def publicBase (h : Headers) : String :=
  orFalsy h.xForwardedProto "https" ++ "://" ++ orFalsy h.xForwardedHost (orFalsy h.host "")

/-- A JavaScript error object as the catch block reads it: the fields
`err.stderr` and `err.message` (absent or a string). -/
structure JSErr where
  stderr : Option String := none
  message : Option String := none
deriving DecidableEq, Repr

/-- `String.prototype.slice(0, n)`. -/
def sliceTo (s : String) (n : Nat) : String := ⟨s.data.take n⟩

/-- The truthy content of an optional string (empty string is falsy). -/
def truthyStr : Option String → Option String
  | none => none
  | some s => if s == "" then none else some s

/-- The catch block's message: `(err && err.stderr) || (err && err.message)
|| "Server error"`, then `String(msg).slice(0, 400)`. -/
def catchMsg (e : JSErr) : String :=
  sliceTo ((truthyStr e.stderr).getD ((truthyStr e.message).getD "Server error")) 400

/-- The JSON response envelope of `/api/download`. -/
structure ApiResponse where
  status : Nat
  success : Bool
  message : Option String := none
  downloadUrl : Option String := none
deriving DecidableEq, Repr

/-- The option object passed to the audio-extraction `ytdlp` call
(everything except the url and output path is a literal constant). -/
structure ExtractOpts where
  url : String
  extractAudio : Bool
  audioFormat : String
  audioQuality : String
  output : String
  restrictFilenames : Bool
  noPlaylist : Bool
deriving DecidableEq, Repr

/-- The options of the mp3-path `ytdlp` call in server.js. -/
def mkExtractOpts (url outFile : String) : ExtractOpts :=
  { url := url, extractAudio := true, audioFormat := "mp3", audioQuality := "0",
    output := outFile, restrictFilenames := true, noPlaylist := true }

/-- `quality === "highest" ? "best" : "best"` — the `-f` selector of the
direct-URL `ytdlp` call. -/
def qualitySelector (q : String) : String := if q == "highest" then "best" else "best"

/-- `platform = String(platform || "").toLowerCase()`. -/
def normPlatform (body : Option ReqBody) : String :=
  toLowerAscii (jsToString (jsOr (getFieldV body ReqBody.platform) (jstr "")))

/-- `format = (format || "mp4").toLowerCase()`: throws a TypeError when the
field holds a truthy non-string value, since only strings carry
`toLowerCase`. -/
def normFormat (v : JSVal) : Except JSErr String :=
  match jsOr v (jstr "mp4") with
  | .prim (.str s) => .ok (toLowerAscii s)
  | _ => .error { stderr := none, message := some "format.toLowerCase is not a function" }

/-- `quality = String(quality || "best")`. -/
def normQuality (body : Option ReqBody) : String :=
  jsToString (jsOr (getFieldV body ReqBody.quality) (jstr "best"))

/-- `String(out || "").split(/\r?\n/)` on a character list: a split point
at each `\n`, consuming one directly preceding `\r`; a lone `\r` stays. -/
def splitCRLF : List Char → List String
  | [] => [""]
  | '\r' :: '\n' :: rest => "" :: splitCRLF rest
  | '\n' :: rest => "" :: splitCRLF rest
  | c :: rest =>
    match splitCRLF rest with
    | [] => [⟨[c]⟩]
    | l :: ls => (⟨c :: l.data⟩ : String) :: ls

/-- The line split of the tool's stdout. -/
def splitLines (s : String) : List String := splitCRLF s.data

/-- `/^https?:\/\//i.test(l)`: the line starts, case-insensitively, with
`http://` or `https://`. -/
def isHttpLine (l : String) : Bool :=
  let low := (l.data.take 8).map Char.toLower
  low.take 7 == "http://".data || low == "https://".data

/-- A file's metadata as `fs.statSync` reports it. -/
structure FileInfo where
  size : Nat
  mtime : Int
deriving DecidableEq, Repr

/-- The filesystem under `/tmp`, as an association list of paths (for the
janitor: directory-entry names) to file metadata. -/
abbrev FS := List (String × FileInfo)

/-- `fs.existsSync` / `fs.statSync` combined: the file at a path, if any. -/
def fsLookup : FS → String → Option FileInfo
  | [], _ => none
  | e :: t, p => if e.1 == p then some e.2 else fsLookup t p

/-- `fs.unlink(p, () => {})`: best-effort removal, a no-op on a missing
path. -/
def fsRemove : FS → String → FS
  | [], _ => []
  | e :: t, p => if e.1 == p then fsRemove t p else e :: fsRemove t p

/-- The body of the `POST /api/download` handler before its try/catch:
`.error` is a thrown JavaScript error. The two external `ytdlp` calls are
oracles: `resolve` takes the url string and the `-f` selector and yields
the tool's stdout; `extract` takes the option object and yields the state
of `/tmp` after the tool ran. `id` is the `nanoid(10)` draw. -/
def apiDownloadE (parse : String → Option String)
    (resolve : String → String → Except JSErr String)
    (extract : ExtractOpts → Except JSErr FS)
    (id : String) (body : Option ReqBody) (headers : Headers) :
    Except JSErr ApiResponse :=
  match normFormat (getFieldV body ReqBody.format) with
  | .error e => .error e
  | .ok format =>
    let platform := normPlatform body
    let quality := normQuality body
    if !(ALLOWED_PLATFORMS.contains platform) then
      .ok { status := 400, success := false, message := some "Invalid platform." }
    else if !(isAllowedUrl parse (getFieldV body ReqBody.url)) then
      .ok { status := 400, success := false, message := some "Invalid/unsupported URL." }
    else if format != "mp3" then
      match resolve (jsToString (getFieldV body ReqBody.url)) (qualitySelector quality) with
      | .error e => .error e
      | .ok out =>
        let lines := (splitLines out).filter (fun l => !(l == ""))
        match lines.find? isHttpLine with
        | none => .ok { status := 200, success := false, message := some "Could not resolve media URL." }
        | some direct => .ok { status := 200, success := true, downloadUrl := some direct }
    else
      let outFile := "/tmp/" ++ id ++ ".mp3"
      match extract (mkExtractOpts (jsToString (getFieldV body ReqBody.url)) outFile) with
      | .error e => .error e
      | .ok fsAfter =>
        match fsLookup fsAfter outFile with
        | none => .ok { status := 200, success := false, message := some "MP3 conversion failed." }
        | some info =>
          if info.size == 0 then
            .ok { status := 200, success := false, message := some "MP3 conversion failed." }
          else
            .ok { status := 200, success := true,
                  downloadUrl := some (publicBase headers ++ "/file/" ++ id) }

/-- The full `POST /api/download` handler: its catch block turns a thrown
error into a 500 with the truncated message. -/
def apiDownload (parse : String → Option String)
    (resolve : String → String → Except JSErr String)
    (extract : ExtractOpts → Except JSErr FS)
    (id : String) (body : Option ReqBody) (headers : Headers) : ApiResponse :=
  match apiDownloadE parse resolve extract id body headers with
  | .ok r => r
  | .error e => { status := 500, success := false, message := some (catchMsg e) }

/-- The character class `[a-zA-Z0-9_-]` of the file route's sanitizer. -/
def isIdChar (c : Char) : Bool :=
  ('a' ≤ c && c ≤ 'z') || ('A' ≤ c && c ≤ 'Z') || ('0' ≤ c && c ≤ '9') || c == '_' || c == '-'

/-- `req.params.id.replace(/[^a-zA-Z0-9_-]/g, "")`. -/
def sanitizeId (s : String) : String := ⟨s.data.filter isIdChar⟩

/-- The path `GET /file/:id` accesses: `/tmp/${id}.mp3` after sanitizing. -/
def fileRoutePath (rawId : String) : String := "/tmp/" ++ sanitizeId rawId ++ ".mp3"

/-- The response of `GET /file/:id`: the status, the two headers it sets,
and which path it streams (if any). -/
structure FileResponse where
  status : Nat
  contentType : Option String := none
  contentDisposition : Option String := none
  streamedPath : Option String := none
deriving DecidableEq, Repr

/-- The `GET /file/:id` handler: 404 when the sanitized path is missing;
otherwise stream it and, once the stream closes, delete the file
(best-effort). Returns the response and the filesystem afterwards. -/
def fileRoute (fs : FS) (rawId : String) : FileResponse × FS :=
  let id := sanitizeId rawId
  let file := fileRoutePath rawId
  match fsLookup fs file with
  | none => ({ status := 404 }, fs)
  | some _ =>
    ({ status := 200, contentType := some "audio/mpeg",
       contentDisposition := some ("attachment; filename=\"" ++ id ++ ".mp3\""),
       streamedPath := some file },
     fsRemove fs file)

/-- `name.endsWith(".mp3")`. -/
def strEndsWith (s suffix : String) : Bool :=
  s.data.drop (s.data.length - suffix.data.length) == suffix.data

/-- The janitor's age threshold: `30 * 60 * 1000` milliseconds. -/
def JANITOR_MAX_AGE : Int := 30 * 60 * 1000

/-- One janitor run over the `/tmp` directory listing: delete (best-effort)
every `.mp3` entry whose age `now - mtimeMs` exceeds the threshold. -/
def janitorSweep (now : Int) (dir : FS) : FS :=
  dir.filter (fun e => !(strEndsWith e.1 ".mp3" && decide (now - e.2.mtime > JANITOR_MAX_AGE)))

/-- A request field that is JSON-typed as the spec's data model types it:
absent, or a string. -/
def strOrAbsent : Option JSVal → Bool
  | none => true
  | some (.prim (.str _)) => true
  | some _ => false

/-- Concrete URL-parse oracle used to instantiate theorems: knows one URL. -/
def cparse : String → Option String :=
  fun s => if s == "https://youtu.be/a" then some "youtu.be" else none

/-- Concrete resolve oracle whose stdout holds one direct media URL. -/
def cresolve : String → String → Except JSErr String :=
  fun _ _ => .ok "warning line\nhttp://cdn.example/v.mp4\nhttps://other.example/v"

/-- Concrete resolve oracle that throws with a bare error object. -/
def cresolveErr : String → String → Except JSErr String := fun _ _ => .error {}

/-- Concrete extraction oracle that writes one non-empty file. -/
def cextract : ExtractOpts → Except JSErr FS :=
  fun _ => .ok [("/tmp/xyz.mp3", ⟨3, 0⟩)]

/-- Concrete valid request body (youtube, an allow-listed URL). -/
def cbody : Option ReqBody :=
  some { platform := some (jstr "youtube"), url := some (jstr "https://youtu.be/a") }

/-- Concrete valid request body asking for mp3 extraction. -/
def cbodyMp3 : Option ReqBody :=
  some { platform := some (jstr "youtube"), url := some (jstr "https://youtu.be/a"),
         format := some (jstr "mp3") }

/-- Concrete headers carrying only a Host header. -/
def cheaders : Headers := { host := some "h.example" }

/-- A removed path no longer resolves: the basis of serve-once. -/
theorem fsLookup_fsRemove (fs : FS) (p : String) :
    fsLookup (fsRemove fs p) p = none := by
  induction fs with
  | nil => rfl
  | cons e t ih =>
    cases hb : e.1 == p with
    | true => simpa [fsRemove, hb] using ih
    | false => simp [fsRemove, fsLookup, hb, ih]

/-- The `-f` selector collapses to "best" whatever the quality string is. -/
theorem qualitySelector_eq (q : String) : qualitySelector q = "best" := by
  simp [qualitySelector]

/-- A JSON-typed format field never throws in normalization. -/
theorem normFormat_ok (v : Option JSVal) (hv : strOrAbsent v = true) :
    ∃ s, normFormat (v.getD (JSVal.prim JSPrim.undef)) = Except.ok s := by
  match v with
  | none => exact ⟨"mp4", rfl⟩
  | some (JSVal.prim (JSPrim.str s)) =>
    by_cases h : s = ""
    · subst h; exact ⟨"mp4", rfl⟩
    · exact ⟨toLowerAscii s, by simp [normFormat, jsOr, truthy, h]⟩
  | some (JSVal.prim JSPrim.undef) => simp [strOrAbsent] at hv
  | some (JSVal.prim JSPrim.null) => simp [strOrAbsent] at hv
  | some (JSVal.prim (JSPrim.bool b)) => simp [strOrAbsent] at hv
  | some (JSVal.prim (JSPrim.num n)) => simp [strOrAbsent] at hv
  | some (JSVal.list xs) => simp [strOrAbsent] at hv

/-- A string platform field normalizes to its ASCII lowercasing. -/
theorem normPlatform_str (rb : ReqBody) (p : String)
    (hp : rb.platform = some (jstr p)) :
    normPlatform (some rb) = toLowerAscii p := by
  by_cases h : p = ""
  · subst h; simp [normPlatform, getFieldV, getFieldO, hp, jsOr, truthy, jstr,
      jsToString, jsPrimToString]
  · simp [normPlatform, getFieldV, getFieldO, hp, jsOr, truthy, jstr, h,
      jsToString, jsPrimToString]

/-- C1: a temp file present at its sanitized path is streamed by the first
`GET /file/:id` (status 200, audio/mpeg, streaming exactly the temp path),
the store then deletes the file, and a second `GET` on the same path
returns 404 — the file is never served twice. -/
theorem file_served_exactly_once (fs : FS) (id : String) (info : FileInfo)
    (hid : sanitizeId id = id)
    (hfile : fsLookup fs ("/tmp/" ++ id ++ ".mp3") = some info) :
    (fileRoute fs id).1.status = 200
    ∧ (fileRoute fs id).1.contentType = some "audio/mpeg"
    ∧ (fileRoute fs id).1.streamedPath = some ("/tmp/" ++ id ++ ".mp3")
    ∧ (fileRoute fs id).2 = fsRemove fs ("/tmp/" ++ id ++ ".mp3")
    ∧ (fileRoute (fileRoute fs id).2 id).1.status = 404 := by
  have hpath : fileRoutePath id = "/tmp/" ++ id ++ ".mp3" := by
    rw [fileRoutePath, hid]
  refine ⟨?_, ?_, ?_, ?_, ?_⟩ <;>
    simp [fileRoute, hpath, hfile, fsLookup_fsRemove]

/-- C1 witness: a concrete store with one file "abc" is served once, the
store drops it, and the second request 404s. -/
theorem file_served_exactly_once_witness :
    (fileRoute [("/tmp/abc.mp3", ⟨5, 0⟩)] "abc").1.status = 200
    ∧ (fileRoute [("/tmp/abc.mp3", ⟨5, 0⟩)] "abc").1.contentType = some "audio/mpeg"
    ∧ (fileRoute [("/tmp/abc.mp3", ⟨5, 0⟩)] "abc").1.streamedPath = some "/tmp/abc.mp3"
    ∧ (fileRoute [("/tmp/abc.mp3", ⟨5, 0⟩)] "abc").2
        = fsRemove [("/tmp/abc.mp3", ⟨5, 0⟩)] "/tmp/abc.mp3"
    ∧ (fileRoute (fileRoute [("/tmp/abc.mp3", ⟨5, 0⟩)] "abc").2 "abc").1.status = 404 :=
  file_served_exactly_once [("/tmp/abc.mp3", ⟨5, 0⟩)] "abc" ⟨5, 0⟩ (by decide) (by decide)

/-- C2: the file route keeps only alphanumeric, hyphen and underscore
characters of the id, accesses exactly the path `/tmp/<sanitized>.mp3`
(so no slash and no dot survive in the id part), and streams no other
path — path traversal cannot escape the temp directory. -/
theorem sanitized_path_confined (raw : String) :
    (∀ c ∈ (sanitizeId raw).data, isIdChar c = true)
    ∧ fileRoutePath raw = "/tmp/" ++ sanitizeId raw ++ ".mp3"
    ∧ '/' ∉ (sanitizeId raw).data
    ∧ '.' ∉ (sanitizeId raw).data
    ∧ (∀ fs : FS, (fileRoute fs raw).1.streamedPath = none
        ∨ (fileRoute fs raw).1.streamedPath = some (fileRoutePath raw)) := by
  refine ⟨?_, rfl, ?_, ?_, ?_⟩
  · intro c hc
    simp only [sanitizeId] at hc
    exact (List.mem_filter.1 hc).2
  · intro h
    simp only [sanitizeId] at h
    exact absurd (List.mem_filter.1 h).2 (by decide)
  · intro h
    simp only [sanitizeId] at h
    exact absurd (List.mem_filter.1 h).2 (by decide)
  · intro fs
    cases h : fsLookup fs (fileRoutePath raw) <;> simp [fileRoute, h]

/-- C2 witness: the canonical traversal input collapses to a safe path. -/
theorem sanitized_path_confined_witness :
    sanitizeId "../../etc/passwd" = "etcpasswd"
    ∧ fileRoutePath "../../etc/passwd" = "/tmp/etcpasswd.mp3" :=
  ⟨by decide, (sanitized_path_confined "../../etc/passwd").2.1.trans (by decide)⟩

/-- C3: two otherwise-identical requests differing only in the quality
field get the same response — the direct-URL `-f` selector is "best" for
"highest" and for every other quality string alike, and the mp3 path's
audio quality is the constant "0". -/
theorem quality_noninterference (parse : String → Option String)
    (resolve : String → String → Except JSErr String)
    (extract : ExtractOpts → Except JSErr FS)
    (id : String) (headers : Headers) (rb : ReqBody) (q1 q2 : Option JSVal) :
    apiDownload parse resolve extract id (some { rb with quality := q1 }) headers
      = apiDownload parse resolve extract id (some { rb with quality := q2 }) headers
    ∧ (∀ q : String, qualitySelector q = "best")
    ∧ (∀ u f : String, (mkExtractOpts u f).audioQuality = "0") := by
  refine ⟨?_, qualitySelector_eq, fun u f => rfl⟩
  simp only [apiDownload, apiDownloadE, qualitySelector_eq, normPlatform, normQuality,
    getFieldV, getFieldO]

/-- C4: on a valid mp3 request, after the extraction call the handler
checks the output file at `/tmp/{id}.mp3`: missing or zero-size output is
a 200 soft failure "MP3 conversion failed.", and otherwise the response is
success with downloadUrl `{origin}/file/{id}` where origin is
x-forwarded-proto (falling back to "https") and x-forwarded-host (falling
back to the Host header). -/
theorem mp3_flow (parse : String → Option String)
    (resolve : String → String → Except JSErr String)
    (extract : ExtractOpts → Except JSErr FS)
    (id : String) (body : Option ReqBody) (headers : Headers) (fsA : FS)
    (hplat : ALLOWED_PLATFORMS.contains (normPlatform body) = true)
    (hurl : isAllowedUrl parse (getFieldV body ReqBody.url) = true)
    (hfmt : normFormat (getFieldV body ReqBody.format) = Except.ok "mp3")
    (hext : extract (mkExtractOpts (jsToString (getFieldV body ReqBody.url))
        ("/tmp/" ++ id ++ ".mp3")) = Except.ok fsA) :
    (fsLookup fsA ("/tmp/" ++ id ++ ".mp3") = none →
      apiDownload parse resolve extract id body headers
        = { status := 200, success := false, message := some "MP3 conversion failed." })
    ∧ (∀ info : FileInfo, fsLookup fsA ("/tmp/" ++ id ++ ".mp3") = some info → info.size = 0 →
      apiDownload parse resolve extract id body headers
        = { status := 200, success := false, message := some "MP3 conversion failed." })
    ∧ (∀ info : FileInfo, fsLookup fsA ("/tmp/" ++ id ++ ".mp3") = some info → info.size ≠ 0 →
      apiDownload parse resolve extract id body headers
        = { status := 200, success := true,
            downloadUrl := some (orFalsy headers.xForwardedProto "https" ++ "://"
              ++ orFalsy headers.xForwardedHost (orFalsy headers.host "") ++ "/file/" ++ id) }) := by
  have hplat2 : normPlatform body ∈ ALLOWED_PLATFORMS := by simpa using hplat
  refine ⟨?_, ?_, ?_⟩
  · intro h
    simp [apiDownload, apiDownloadE, hfmt, hplat2, hurl, hext, h]
  · intro info h hz
    simp [apiDownload, apiDownloadE, hfmt, hplat2, hurl, hext, h, hz]
  · intro info h hz
    simp [apiDownload, apiDownloadE, hfmt, hplat2, hurl, hext, h, hz, publicBase]

/-- C4 witness: the concrete mp3 request with a written 3-byte output file
yields success and the link built from the Host header fallback. -/
theorem mp3_flow_witness :
    apiDownload cparse cresolve cextract "xyz" cbodyMp3 cheaders
      = { status := 200, success := true,
          downloadUrl := some (orFalsy cheaders.xForwardedProto "https" ++ "://"
            ++ orFalsy cheaders.xForwardedHost (orFalsy cheaders.host "") ++ "/file/" ++ "xyz") } :=
  (mp3_flow cparse cresolve cextract "xyz" cbodyMp3 cheaders [("/tmp/xyz.mp3", ⟨3, 0⟩)]
    (by decide) (by decide) (by rfl) (by rfl)).2.2 ⟨3, 0⟩ (by rfl) (by decide)

/-- C5: on a valid non-mp3 request the tool's stdout is split into lines
and the first line matching `^https?://` becomes the result; when no line
matches, the handler answers HTTP 200 with success=false and the message
"Could not resolve media URL." rather than an error status. -/
theorem direct_url_flow (parse : String → Option String)
    (resolve : String → String → Except JSErr String)
    (extract : ExtractOpts → Except JSErr FS)
    (id : String) (body : Option ReqBody) (headers : Headers) (f out : String)
    (hplat : ALLOWED_PLATFORMS.contains (normPlatform body) = true)
    (hurl : isAllowedUrl parse (getFieldV body ReqBody.url) = true)
    (hfmt : normFormat (getFieldV body ReqBody.format) = Except.ok f)
    (hne : f ≠ "mp3")
    (hres : resolve (jsToString (getFieldV body ReqBody.url)) "best" = Except.ok out) :
    (((splitLines out).filter (fun l => !(l == ""))).find? isHttpLine = none →
      apiDownload parse resolve extract id body headers
        = { status := 200, success := false, message := some "Could not resolve media URL." })
    ∧ (∀ d : String, ((splitLines out).filter (fun l => !(l == ""))).find? isHttpLine = some d →
      apiDownload parse resolve extract id body headers
        = { status := 200, success := true, downloadUrl := some d }) := by
  have hplat2 : normPlatform body ∈ ALLOWED_PLATFORMS := by simpa using hplat
  refine ⟨?_, ?_⟩
  · intro h
    simp [apiDownload, apiDownloadE, hfmt, hplat2, hurl, hne, qualitySelector_eq, hres, h]
  · intro d h
    simp [apiDownload, apiDownloadE, hfmt, hplat2, hurl, hne, qualitySelector_eq, hres, h]

/-- C5 witness: a concrete stdout with a warning line first — the first
http line is returned; the tool's selector call is the "best" one. -/
theorem direct_url_flow_witness :
    apiDownload cparse cresolve cextract "xyz" cbody cheaders
      = { status := 200, success := true, downloadUrl := some "http://cdn.example/v.mp4" } :=
  (direct_url_flow cparse cresolve cextract "xyz" cbody cheaders "mp4"
    "warning line\nhttp://cdn.example/v.mp4\nhttps://other.example/v"
    (by decide) (by decide) (by rfl) (by decide) (by rfl)).2
    "http://cdn.example/v.mp4" (by decide)

/-- C6: whenever the handler body throws, the catch block answers HTTP 500
with success=false and a message that is `err.stderr`, else `err.message`,
else the fallback "Server error", truncated to at most 400 characters. -/
theorem hard_failure_500 (parse : String → Option String)
    (resolve : String → String → Except JSErr String)
    (extract : ExtractOpts → Except JSErr FS)
    (id : String) (body : Option ReqBody) (headers : Headers) (e : JSErr)
    (herr : apiDownloadE parse resolve extract id body headers = Except.error e) :
    apiDownload parse resolve extract id body headers
      = { status := 500, success := false, message := some (catchMsg e) }
    ∧ (catchMsg e).length ≤ 400
    ∧ (e.stderr = none → e.message = none → catchMsg e = "Server error") := by
  refine ⟨by simp [apiDownload, herr], ?_, ?_⟩
  · have : (catchMsg e).length = (((truthyStr e.stderr).getD
        ((truthyStr e.message).getD "Server error")).data.take 400).length := rfl
    rw [this, List.length_take]
    exact min_le_left _ _
  · intro h1 h2
    simp only [catchMsg, truthyStr, h1, h2, Option.getD]
    decide

/-- C6 witness: a valid request whose resolve call throws a bare error
object gets a 500 with the generic fallback message. -/
theorem hard_failure_500_witness :
    apiDownload cparse cresolveErr cextract "xyz" cbody cheaders
      = { status := 500, success := false, message := some "Server error" } :=
  (hard_failure_500 cparse cresolveErr cextract "xyz" cbody cheaders {} (by rfl)).1.trans
    (by decide)

/-- C7: a request whose string platform field lowercases to something
outside {youtube, instagram, tiktok, twitter} (its other fields JSON-typed
per the data model, i.e. format absent or a string) is answered 400 with
"Invalid platform.". -/
theorem invalid_platform_400 (parse : String → Option String)
    (resolve : String → String → Except JSErr String)
    (extract : ExtractOpts → Except JSErr FS)
    (id : String) (headers : Headers) (rb : ReqBody) (p : String)
    (hplat : rb.platform = some (jstr p))
    (hfmt : strOrAbsent rb.format = true)
    (hne : ALLOWED_PLATFORMS.contains (toLowerAscii p) = false) :
    apiDownload parse resolve extract id (some rb) headers
      = { status := 400, success := false, message := some "Invalid platform." } := by
  obtain ⟨s, hs⟩ := normFormat_ok rb.format hfmt
  have hp := normPlatform_str rb p hplat
  have hne2 : normPlatform (some rb) ∉ ALLOWED_PLATFORMS := by
    rw [hp]; simpa using hne
  simp [apiDownload, apiDownloadE, getFieldV, getFieldO, hs, hne2]

/-- C7 witness: platform "foo" is rejected with the 400 envelope. -/
theorem invalid_platform_400_witness :
    apiDownload cparse cresolve cextract "x" (some { platform := some (jstr "foo") }) cheaders
      = { status := 400, success := false, message := some "Invalid platform." } :=
  invalid_platform_400 cparse cresolve cextract "x" cheaders
    { platform := some (jstr "foo") } "foo" rfl (by decide) (by decide)

/-- C8: whenever the url field fails to parse (the parser oracle yields
none) or parses to a hostname whose lowercasing is outside the host
allow-list, the handler answers status 400 — whether or not the platform
is valid (format JSON-typed per the data model). -/
theorem invalid_url_400 (parse : String → Option String)
    (resolve : String → String → Except JSErr String)
    (extract : ExtractOpts → Except JSErr FS)
    (id : String) (body : Option ReqBody) (headers : Headers)
    (hfmt : strOrAbsent (getFieldO body ReqBody.format) = true)
    (hbad : ∀ h : String, parse (jsToString (getFieldV body ReqBody.url)) = some h →
        ALLOWED_HOSTS.contains (toLowerAscii h) = false) :
    (apiDownload parse resolve extract id body headers).status = 400 := by
  obtain ⟨s, hs⟩ := normFormat_ok (getFieldO body ReqBody.format) hfmt
  have hurl : isAllowedUrl parse (getFieldV body ReqBody.url) = false := by
    unfold isAllowedUrl
    cases hp : parse (jsToString (getFieldV body ReqBody.url)) with
    | none => rfl
    | some h => exact hbad h hp
  simp only [getFieldV] at hurl
  by_cases hc : normPlatform body ∈ ALLOWED_PLATFORMS
  · simp [apiDownload, apiDownloadE, getFieldV, hs, hc, hurl]
  · simp [apiDownload, apiDownloadE, getFieldV, hs, hc, hurl]

/-- C8 witness: a valid platform with a URL the parser rejects still gets
status 400. -/
theorem invalid_url_400_witness :
    (apiDownload cparse cresolve cextract "x"
      (some { platform := some (jstr "youtube"), url := some (jstr "https://evil.example/") })
      cheaders).status = 400 :=
  invalid_url_400 cparse cresolve cextract "x"
    (some { platform := some (jstr "youtube"), url := some (jstr "https://evil.example/") })
    cheaders (by decide)
    (fun h hh => Option.noConfusion
      ((by decide : cparse (jsToString (getFieldV
        (some { platform := some (jstr "youtube"), url := some (jstr "https://evil.example/") })
        ReqBody.url)) = none).symm.trans hh))

/-- C9: on a janitor sweep, every `.mp3` directory entry older than 30
minutes is deleted, and every `.mp3` entry of age 30 minutes or less is
left in place. -/
theorem janitor_sweep_boundary (now : Int) (dir : FS) (name : String) (info : FileInfo)
    (hmem : (name, info) ∈ dir)
    (hmp3 : strEndsWith name ".mp3" = true) :
    (now - info.mtime > JANITOR_MAX_AGE → (name, info) ∉ janitorSweep now dir)
    ∧ (now - info.mtime ≤ JANITOR_MAX_AGE → (name, info) ∈ janitorSweep now dir) := by
  constructor
  · intro hage hin
    have hp := (List.mem_filter.1 hin).2
    simp [hmp3] at hp
    exact absurd hage (by simpa using hp)
  · intro hage
    refine List.mem_filter.2 ⟨hmem, ?_⟩
    simp [hmp3]
    omega

/-- C9 witness: a sweep at time 0 deletes the entry one millisecond past
the threshold and keeps the fresh one. -/
theorem janitor_sweep_boundary_witness :
    ("old.mp3", (⟨1, -(30 * 60 * 1000) - 1⟩ : FileInfo))
        ∉ janitorSweep 0 [("old.mp3", ⟨1, -(30 * 60 * 1000) - 1⟩), ("new.mp3", ⟨1, 0⟩)]
    ∧ ("new.mp3", (⟨1, 0⟩ : FileInfo))
        ∈ janitorSweep 0 [("old.mp3", ⟨1, -(30 * 60 * 1000) - 1⟩), ("new.mp3", ⟨1, 0⟩)] :=
  ⟨(janitor_sweep_boundary 0
      [("old.mp3", ⟨1, -(30 * 60 * 1000) - 1⟩), ("new.mp3", ⟨1, 0⟩)]
      "old.mp3" ⟨1, -(30 * 60 * 1000) - 1⟩ (by decide) (by decide)).1 (by decide),
   (janitor_sweep_boundary 0
      [("old.mp3", ⟨1, -(30 * 60 * 1000) - 1⟩), ("new.mp3", ⟨1, 0⟩)]
      "new.mp3" ⟨1, 0⟩ (by decide) (by decide)).2 (by decide)⟩

/-- C10 counterexample: a body whose platform is missing but whose format
field holds the number 5 makes the normalization `(format ||
"mp4").toLowerCase()` throw, so the handler answers 500, not the 400
"Invalid platform." validation response the claim promises. -/
theorem nonstring_format_counterexample :
    (apiDownload cparse cresolve cextract "x"
      (some { format := some (JSVal.prim (JSPrim.num 5)) }) cheaders).status = 500
    ∧ (apiDownload cparse cresolve cextract "x"
      (some { format := some (JSVal.prim (JSPrim.num 5)) }) cheaders).message
        ≠ some "Invalid platform." := by
  constructor <;> decide

/-- C10 (amended): when the format field is absent or a string, the
handler body never throws on a missing or non-string platform — platform
is coerced with String() (the empty string when the field is missing) and
lowercased, and whenever the coerced value is outside the platform
allow-list the request is rejected 400 "Invalid platform.", not 500. -/
theorem platform_validation_total (parse : String → Option String)
    (resolve : String → String → Except JSErr String)
    (extract : ExtractOpts → Except JSErr FS)
    (id : String) (body : Option ReqBody) (headers : Headers)
    (hfmt : strOrAbsent (getFieldO body ReqBody.format) = true)
    (hplat : ALLOWED_PLATFORMS.contains (normPlatform body) = false) :
    apiDownloadE parse resolve extract id body headers
      = Except.ok { status := 400, success := false, message := some "Invalid platform." }
    ∧ apiDownload parse resolve extract id body headers
      = { status := 400, success := false, message := some "Invalid platform." }
    ∧ (getFieldO body ReqBody.platform = none → normPlatform body = "") := by
  obtain ⟨s, hs⟩ := normFormat_ok (getFieldO body ReqBody.format) hfmt
  have hp : normPlatform body ∉ ALLOWED_PLATFORMS := by simpa using hplat
  refine ⟨?_, ?_, ?_⟩
  · simp [apiDownloadE, getFieldV, hs, hp]
  · simp [apiDownload, apiDownloadE, getFieldV, hs, hp]
  · intro h
    simp [normPlatform, getFieldV, h, jsOr, truthy, jstr, jsToString, jsPrimToString,
      toLowerAscii]

/-- C10 witness: the absent body defaults to an empty object, the missing
platform coerces to "", and the request is rejected 400 without a throw. -/
theorem platform_validation_total_witness :
    apiDownloadE cparse cresolve cextract "x" (none : Option ReqBody) cheaders
      = Except.ok { status := 400, success := false, message := some "Invalid platform." }
    ∧ apiDownload cparse cresolve cextract "x" (none : Option ReqBody) cheaders
      = { status := 400, success := false, message := some "Invalid platform." }
    ∧ (getFieldO (none : Option ReqBody) ReqBody.platform = none
        → normPlatform (none : Option ReqBody) = "") :=
  platform_validation_total cparse cresolve cextract "x" none cheaders (by decide) (by decide)

end Server
